import Mathlib

/-!
Shallow embedding of `productivity_tracker/productivity_bot/inbound_message_helpers.py`.

The module handles one inbound chat message for one user: it tokenizes the
text, classifies it as a start / stop / log command, and mutates the per-user
store of `ActiveLoops` rows accordingly, returning reply text.  All claims are
about a single user's rows, so the store is modelled as that user's slice:
the list of its `ActiveLoops` rows (in insertion order, as Django's default
unordered `filter(...)` iteration returns them) plus its list of stored
`UserResponse` texts.  `User.objects.get_or_create` is the external
persistence boundary; it touches no state any claim observes, so it is not
modelled beyond keeping the `user_name` / `space_name` parameters in the
signature.

Python exceptions are modelled by an `Outcome` sum: the handler either
produces a reply string or raises.  Because Django's default autocommit mode
persists each `delete()` / `save()` immediately, state mutated before an
exception survives it, so every operation returns the store alongside the
outcome, raised outcomes included.
-/

namespace ProductivityBot

/-- The Python exceptions the embedded code can raise: `mssg[0]` on an empty
token list (IndexError), `int(...)` on a non-integer string (ValueError), and
string `%`-formatting with an argument but no conversion specifier
(TypeError). -/
inductive PyError where
  | indexError
  | valueError
  | typeError
deriving DecidableEq, Repr

/-- Result of one handler invocation: a reply string, or a raised exception. -/
inductive Outcome where
  | reply (text : String)
  | raised (e : PyError)
deriving DecidableEq, Repr

/-- One `ActiveLoops` row (model fields `mssg_freq` and `mins_to_mssg`); the
`user` foreign key is implicit since the state is one user's slice. -/
structure ActiveLoop where
  mssg_freq : Int
  mins_to_mssg : Int
deriving DecidableEq, Repr

/-- One user's slice of the persistent store: their `ActiveLoops` rows in
insertion order, and their stored `UserResponse` texts. -/
structure BotState where
  loops : List ActiveLoop
  responses : List String
deriving DecidableEq, Repr

/-! ### Python string primitives -/

/-- Helper for `pySplit`: walks the characters accumulating the current token
(in reverse); whitespace ends a token, runs of whitespace produce none.  This
is the semantics of Python's no-argument `str.split()`. -/
def pyTokensAux : List Char → List Char → List String
  | [], acc => if acc.isEmpty then [] else [String.mk acc.reverse]
  | c :: cs, acc =>
    if c.isWhitespace then
      if acc.isEmpty then pyTokensAux cs []
      else String.mk acc.reverse :: pyTokensAux cs []
    else
      pyTokensAux cs (c :: acc)

/-- Python's `str.split()` with no argument: split on runs of whitespace,
never producing empty tokens (so a whitespace-only string yields `[]`). -/
def pySplit (s : String) : List String :=
  pyTokensAux s.toList []

/-- Python's `str.isdigit()`: true iff the string is non-empty and every
character is a digit (restricted to ASCII digits, the only ones exercised). -/
def pyIsdigit (s : String) : Bool :=
  !s.toList.isEmpty && s.toList.all Char.isDigit

/-- Value of an ASCII digit string read left to right. -/
def digitsToNat (cs : List Char) : Nat :=
  cs.foldl (fun n c => 10 * n + (c.toNat - 48)) 0

/-- Python's `int(str)`: strips surrounding whitespace, accepts an optional
sign followed by a non-empty digit string, and raises ValueError (here
`none`) otherwise. -/
def pyInt (s : String) : Option Int :=
  let cs := ((s.toList.dropWhile Char.isWhitespace).reverse.dropWhile
      Char.isWhitespace).reverse
  match cs with
  | [] => none
  | '+' :: ds =>
    if !ds.isEmpty && ds.all Char.isDigit then some (digitsToNat ds) else none
  | '-' :: ds =>
    if !ds.isEmpty && ds.all Char.isDigit then some (-(digitsToNat ds : Int))
    else none
  | ds =>
    if ds.all Char.isDigit then some (digitsToNat ds) else none

/-- Locates the first `"%s"` conversion specifier of a format string,
returning the characters before and after it. -/
def fmtSplit : List Char → Option (List Char × List Char)
  | [] => none
  | '%' :: 's' :: rest => some ([], rest)
  | c :: rest => (fmtSplit rest).map (fun p => (c :: p.1, p.2))

/-- Python's `fmt % arg` for a single string argument, for format strings
whose only `%` occurrences (if any) are a single `"%s"` — true of both
templates in the source.  With no conversion specifier at all, Python raises
TypeError (not all arguments converted), modelled as `none`. -/
def pyFmtS (fmt arg : String) : Option String :=
  match fmtSplit fmt.toList with
  | none => none
  | some p => some (String.mk p.1 ++ arg ++ String.mk p.2)

/-! ### The module's string constants -/

def COMMAND_ERROR : String := "Sorry, that was an invalid command."

def SESSION_BEGIN : String :=
  "Working session has begun! To end the session, say \"stop\""

def SESSION_END : String :=
  "Working session has ended! See a summary of your work here: %s"

/-! ### Session-manager operations -/

/-- Model of `in_active_loop(user)`: `ActiveLoops.objects.filter(user=user)` followed by
`active_loop[0]` if it exists, else `False` — i.e. the first of the user's
rows, if any. -/
def in_active_loop (st : BotState) : Option ActiveLoop :=
  st.loops.head?

/-- Model of `start_active_loop(user, mssg_freq, space_name)`: delete the user's
existing row if one exists, then construct `ActiveLoops(user, int(mssg_freq),
-1*int(mssg_freq))` and save it, then return `SESSION_BEGIN % mssg_freq`.
The `int` conversion happens after the delete (so a ValueError leaves the old
row deleted), and the `%` formatting happens after the save. -/
def start_active_loop (mssg_freq : String) (st : BotState) :
    Outcome × BotState :=
  let st1 := match in_active_loop st with
    | some _ => { st with loops := st.loops.tail }
    | none => st
  match pyInt mssg_freq with
  | none => (.raised .valueError, st1)
  | some n =>
    let st2 := { st1 with loops := st1.loops ++ [⟨n, -1 * n⟩] }
    match pyFmtS SESSION_BEGIN mssg_freq with
    | none => (.raised .typeError, st2)
    | some r => (.reply r, st2)

/-- Model of `end_active_loop(user)`: if the user has no row, reply with the whimsical
string; otherwise delete the row and return `SESSION_END % "google.com"`. -/
def end_active_loop (st : BotState) : Outcome × BotState :=
  match in_active_loop st with
  | none => (.reply "I can't believe you've done this", st)
  | some _ =>
    let st1 := { st with loops := st.loops.tail }
    match pyFmtS SESSION_END "google.com" with
    | none => (.raised .typeError, st1)
    | some r => (.reply r, st1)

/-- Model of `log_user_response(user, text)`: the body is only TODO comments and
`return "Response has been logged!"` — nothing is stored. -/
def log_user_response (st : BotState) (text : List String) :
    Outcome × BotState :=
  (.reply "Response has been logged!", st)

/-! ### The dispatcher -/

/-- The branch body of `handle_inbound_message` after `mssg = mssg_text.split()`:
dispatch on `mssg[0]` (IndexError on an empty token list).  The start guard is
`len(mssg) != 3 or not (mssg[1].isdigit() or mssg[2] != 'hours')`, the stop
guard is `len(mssg) != 1 and not in_active_loop(user)`, and the log branch
requires `in_active_loop(user)`.  With `mssg = m0 :: rest`, `len(mssg)` is
`rest.length + 1` and `mssg[1]`, `mssg[2]` are `rest[0]`, `rest[1]` (only
inspected when the length check has already passed, matching Python's
short-circuit). -/
def dispatch : List String → BotState → Outcome × BotState
  | [], st => (.raised .indexError, st)
  | m0 :: rest, st =>
    if m0 == "start" then
      if rest.length != 2
          || !(pyIsdigit (rest.getD 0 "") || rest.getD 1 "" != "hours") then
        (.reply COMMAND_ERROR, st)
      else
        start_active_loop (rest.getD 0 "") st
    else if m0 == "stop" then
      if rest.length != 0 && (in_active_loop st).isNone then
        (.reply COMMAND_ERROR, st)
      else
        end_active_loop st
    else
      if (in_active_loop st).isNone then
        (.reply COMMAND_ERROR, st)
      else
        log_user_response st (m0 :: rest)

/-- Model of `handle_inbound_message(mssg_text, user_name, space_name)`: tokenize, do
`User.objects.get_or_create(...)` (external store, no observable effect on
this user's session rows), then dispatch on the first token. -/
def handle_inbound_message (mssg_text user_name space_name : String)
    (st : BotState) : Outcome × BotState :=
  dispatch (pySplit mssg_text) st

/-! ### Helper lemmas -/

/-- The template `SESSION_BEGIN` contains no conversion specifier, so applying `%` to it
with any argument raises TypeError. -/
theorem pyFmtS_session_begin (arg : String) :
    pyFmtS SESSION_BEGIN arg = none := by
  have h : fmtSplit SESSION_BEGIN.toList = none := by decide
  unfold pyFmtS
  rw [h]

/-- Formatting `SESSION_END % "google.com"` substitutes the summary link. -/
theorem pyFmtS_session_end :
    pyFmtS SESSION_END "google.com" =
      some "Working session has ended! See a summary of your work here: google.com" := by
  decide

/-- Every call of `start_active_loop` raises: ValueError when the frequency token is
not an integer literal, TypeError otherwise (from `SESSION_BEGIN % mssg_freq`). -/
theorem start_active_loop_raises (f : String) (st : BotState) :
    (start_active_loop f st).1 = Outcome.raised PyError.valueError ∨
      (start_active_loop f st).1 = Outcome.raised PyError.typeError := by
  unfold start_active_loop
  cases hpi : pyInt f <;> simp [hpi, pyFmtS_session_begin]

/-- Every call of `end_active_loop` replies with the whimsical no-session string or the
substituted end-session string. -/
theorem end_active_loop_fst (st : BotState) :
    (end_active_loop st).1 = Outcome.reply "I can't believe you've done this" ∨
      (end_active_loop st).1 =
        Outcome.reply
          "Working session has ended! See a summary of your work here: google.com" := by
  unfold end_active_loop
  cases hl : in_active_loop st <;> simp [hl, pyFmtS_session_end]

/-- Tokenizing a string of whitespace characters yields no tokens. -/
theorem pyTokensAux_all_ws (cs : List Char)
    (h : ∀ c ∈ cs, c.isWhitespace = true) : pyTokensAux cs [] = [] := by
  induction cs with
  | nil => simp [pyTokensAux]
  | cons c cs ih =>
    have hc : c.isWhitespace = true := h c (by simp)
    simp only [pyTokensAux, hc, List.isEmpty_nil, if_true]
    exact ih (fun d hd => h d (by simp [hd]))

/-! ### Claims -/

/-- Claim C1 (code_bug evidence): the input "start 3 hours" from a user with
no session is a valid start intent, yet the code raises TypeError (at
`SESSION_BEGIN % mssg_freq`, a format string with no conversion specifier)
instead of returning a reply string — contradicting the module docstrings,
which promise that no errors are raised. -/
theorem claim_C1_bug :
    handle_inbound_message "start 3 hours" "u" "s" ⟨[], []⟩ =
      (Outcome.raised PyError.typeError, ⟨[⟨3, -3⟩], []⟩) := by
  decide

/-- Claim C2 (code_bug evidence): for every user in NoSession, "start 3 hours"
does create an ActiveSession with ping frequency 3, but the handler raises
TypeError rather than returning the begin-session reply. -/
theorem claim_C2_bug (u s : String) (st : BotState) (h : st.loops = []) :
    handle_inbound_message "start 3 hours" u s st =
      (Outcome.raised PyError.typeError, { st with loops := [⟨3, -3⟩] }) := by
  obtain ⟨lp, rs⟩ := st
  simp only at h
  subst h
  rfl

/-- Witness for claim C2's theorem at a concrete state. -/
theorem claim_C2_bug_witness :
    handle_inbound_message "start 3 hours" "a" "b" ⟨[], ["r"]⟩ =
      (Outcome.raised PyError.typeError, ⟨[⟨3, -3⟩], ["r"]⟩) :=
  claim_C2_bug "a" "b" ⟨[], ["r"]⟩ rfl

/-- Claim C10: the handler reads `mssg[0]` unconditionally, so every
non-empty input consisting solely of whitespace reaches the out-of-bounds
access on the empty token list (IndexError), for any state. -/
theorem claim_C10_ws_index_error (t u s : String) (st : BotState)
    (hne : t ≠ "") (hws : ∀ c ∈ t.toList, c.isWhitespace = true) :
    handle_inbound_message t u s st = (Outcome.raised PyError.indexError, st) := by
  have h : pySplit t = [] := pyTokensAux_all_ws t.toList hws
  simp [handle_inbound_message, h, dispatch]

/-- Witness for claim C10's theorem at the single-space input. -/
theorem claim_C10_ws_index_error_witness :
    handle_inbound_message " " "u" "s" ⟨[], []⟩ =
      (Outcome.raised PyError.indexError, ⟨[], []⟩) :=
  claim_C10_ws_index_error " " "u" "s" ⟨[], []⟩ (by decide) (by decide)

/-- The start guard of the dispatcher is false (i.e. the message is routed to
session start) exactly when there are 3 tokens and the second is all digits
or the third differs from "hours". -/
theorem start_guard_false_iff (ws : List String) :
    ((ws.length != 2
        || !(pyIsdigit (ws.getD 0 "") || ws.getD 1 "" != "hours")) = false) ↔
      (ws.length = 2 ∧
        (pyIsdigit (ws.getD 0 "") = true ∨ ws.getD 1 "" ≠ "hours")) := by
  cases hd : pyIsdigit (ws.getD 0 "") <;>
    by_cases hh : ws.getD 1 "" = "hours" <;>
      by_cases hl : ws.length = 2 <;>
        simp [hd, hh, hl]

/-- The stop guard of the dispatcher is true (i.e. the fixed error reply is
returned) exactly when the message has more than one token and the user has
no session row. -/
theorem stop_guard_true_iff (ws : List String) (st : BotState) :
    ((ws.length != 0 && (in_active_loop st).isNone) = true) ↔
      (ws ≠ [] ∧ st.loops = []) := by
  simp only [Bool.and_eq_true, bne_iff_ne, ne_eq, List.length_eq_zero,
    in_active_loop, Option.isNone_iff_eq_none, List.head?_eq_none_iff]

/-- Claim C3 (counterexample): "start 5 foo" has exactly 3 tokens, a digit
second token, and a third token different from "hours", so the claim as
stated predicts the fixed invalid-command reply; the code instead routes it
to session start, creating a session row (and then raising TypeError). -/
theorem claim_C3_counterexample :
    (handle_inbound_message "start 5 foo" "u" "s" ⟨[], []⟩).1 ≠
        Outcome.reply COMMAND_ERROR ∧
      (handle_inbound_message "start 5 foo" "u" "s" ⟨[], []⟩).2.loops =
        [⟨5, -5⟩] := by
  decide

/-- Claim C3 (amended): a start-prefixed message yields the fixed
invalid-command reply with the state untouched iff it fails the source's
guard — exactly 3 tokens AND (second token all digits OR third token
different from "hours"); messages passing the guard are routed to session
start.  In particular "start abc hours" fails the guard and gets the error
reply. -/
theorem claim_C3_amended (t u s : String) (st : BotState) (ws : List String)
    (h : pySplit t = "start" :: ws) :
    ((handle_inbound_message t u s st).1 = Outcome.reply COMMAND_ERROR ∧
        (handle_inbound_message t u s st).2 = st) ↔
      ¬(ws.length = 2 ∧
        (pyIsdigit (ws.getD 0 "") = true ∨ ws.getD 1 "" ≠ "hours")) := by
  unfold handle_inbound_message
  rw [h]
  have hred : dispatch ("start" :: ws) st =
      if (ws.length != 2
          || !(pyIsdigit (ws.getD 0 "") || ws.getD 1 "" != "hours")) then
        (Outcome.reply COMMAND_ERROR, st)
      else
        start_active_loop (ws.getD 0 "") st := rfl
  cases hcond : (ws.length != 2
      || !(pyIsdigit (ws.getD 0 "") || ws.getD 1 "" != "hours")) with
  | true =>
    rw [hcond] at hred
    simp only [if_true] at hred
    rw [hred]
    refine iff_of_true ⟨rfl, rfl⟩ (fun contra => ?_)
    rw [(start_guard_false_iff ws).mpr contra] at hcond
    exact Bool.noConfusion hcond
  | false =>
    rw [hcond] at hred
    simp only [Bool.false_eq_true, if_false] at hred
    rw [hred]
    refine iff_of_false (fun hcontra => ?_)
      (fun hP => hP ((start_guard_false_iff ws).mp hcond))
    rcases start_active_loop_raises (ws.getD 0 "") st with h1 | h1 <;>
      rw [h1] at hcontra <;> exact Outcome.noConfusion hcontra.1

/-- Witness for claim C3's amended theorem at "start abc hours". -/
theorem claim_C3_amended_witness :
    pySplit "start abc hours" = "start" :: ["abc", "hours"] ∧
    (((handle_inbound_message "start abc hours" "u" "s" ⟨[], []⟩).1 =
          Outcome.reply COMMAND_ERROR ∧
        (handle_inbound_message "start abc hours" "u" "s" ⟨[], []⟩).2 =
          ⟨[], []⟩) ↔
      ¬(List.length ["abc", "hours"] = 2 ∧
        (pyIsdigit (List.getD ["abc", "hours"] 0 "") = true ∨
          List.getD ["abc", "hours"] 1 "" ≠ "hours"))) :=
  ⟨rfl, claim_C3_amended "start abc hours" "u" "s" ⟨[], []⟩ ["abc", "hours"] rfl⟩

/-- Claim C4 (counterexample): "stop now" with no active session satisfies
the claim's validity condition (no active session), so the claim predicts the
message is routed to stop handling (whose no-session reply is the whimsical
string); the code instead returns the fixed invalid-command reply. -/
theorem claim_C4_counterexample :
    (handle_inbound_message "stop now" "u" "s" ⟨[], []⟩).1 =
        Outcome.reply COMMAND_ERROR ∧
      Outcome.reply COMMAND_ERROR ≠
        Outcome.reply "I can't believe you've done this" := by
  decide

/-- Claim C4 (amended): a stop-prefixed message yields the fixed
invalid-command reply with the state untouched iff it has more than one
token AND the user has no active session; it is routed to stop handling iff
it is a single token OR the user has an active session. -/
theorem claim_C4_amended (t u s : String) (st : BotState) (ws : List String)
    (h : pySplit t = "stop" :: ws) :
    ((handle_inbound_message t u s st).1 = Outcome.reply COMMAND_ERROR ∧
        (handle_inbound_message t u s st).2 = st) ↔
      (ws ≠ [] ∧ st.loops = []) := by
  unfold handle_inbound_message
  rw [h]
  have hred : dispatch ("stop" :: ws) st =
      if (ws.length != 0 && (in_active_loop st).isNone) then
        (Outcome.reply COMMAND_ERROR, st)
      else
        end_active_loop st := rfl
  cases hcond : (ws.length != 0 && (in_active_loop st).isNone) with
  | true =>
    rw [hcond] at hred
    simp only [if_true] at hred
    rw [hred]
    exact iff_of_true ⟨rfl, rfl⟩ ((stop_guard_true_iff ws st).mp hcond)
  | false =>
    rw [hcond] at hred
    simp only [Bool.false_eq_true, if_false] at hred
    rw [hred]
    refine iff_of_false (fun hcontra => ?_) (fun hP => ?_)
    · rcases end_active_loop_fst st with h1 | h1 <;>
        rw [h1] at hcontra <;> exact absurd hcontra.1 (by decide)
    · rw [(stop_guard_true_iff ws st).mpr hP] at hcond
      exact Bool.noConfusion hcond

/-- Witness for claim C4's amended theorem at "stop now" with a session. -/
theorem claim_C4_amended_witness :
    pySplit "stop now" = "stop" :: ["now"] ∧
    (((handle_inbound_message "stop now" "u" "s" ⟨[⟨3, -3⟩], []⟩).1 =
          Outcome.reply COMMAND_ERROR ∧
        (handle_inbound_message "stop now" "u" "s" ⟨[⟨3, -3⟩], []⟩).2 =
          ⟨[⟨3, -3⟩], []⟩) ↔
      ((["now"] : List String) ≠ [] ∧
        ([⟨3, -3⟩] : List ActiveLoop) = [])) :=
  ⟨rfl, claim_C4_amended "stop now" "u" "s" ⟨[⟨3, -3⟩], []⟩ ["now"] rfl⟩

/-- Calling `start_active_loop` keeps the per-user row count at most one (from a
state with at most one row it deletes the existing row, then adds exactly
one, or none if the frequency token fails to parse). -/
theorem start_active_loop_loops_length (f : String) (st : BotState)
    (h : st.loops.length ≤ 1) :
    ((start_active_loop f st).2).loops.length ≤ 1 := by
  unfold start_active_loop
  cases hl : st.loops with
  | nil =>
    cases hpi : pyInt f <;>
      simp [in_active_loop, hl, hpi, pyFmtS_session_begin]
  | cons a tl =>
    have htl : tl = [] := by
      rw [hl] at h
      simp only [List.length_cons] at h
      exact List.length_eq_zero.mp (by omega)
    subst htl
    cases hpi : pyInt f <;>
      simp [in_active_loop, hl, hpi, pyFmtS_session_begin]

/-- Calling `end_active_loop` never increases the per-user row count. -/
theorem end_active_loop_loops_length (st : BotState)
    (h : st.loops.length ≤ 1) :
    ((end_active_loop st).2).loops.length ≤ 1 := by
  unfold end_active_loop
  cases hl : st.loops with
  | nil =>
    simp only [in_active_loop, hl, List.head?_nil]
    exact hl ▸ h
  | cons a tl =>
    rw [hl] at h
    simp only [List.length_cons] at h
    simp only [in_active_loop, hl, List.head?_cons, List.tail_cons,
      pyFmtS_session_end]
    omega

/-- Claim C5: re-issuing "start 5 hours" while InSession with frequency 3
replaces the old row, so exactly one row remains and its frequency is 5; and
every inbound message preserves the at-most-one-ActiveSession-per-user
invariant. -/
theorem claim_C5_replace_and_invariant :
    (∀ (u s : String) (st : BotState) (l : ActiveLoop),
        st.loops = [l] → l.mssg_freq = 3 →
        (handle_inbound_message "start 5 hours" u s st).2.loops = [⟨5, -5⟩]) ∧
    (∀ (t u s : String) (st : BotState), st.loops.length ≤ 1 →
        ((handle_inbound_message t u s st).2).loops.length ≤ 1) := by
  constructor
  · intro u s st l h hf
    obtain ⟨lp, rs⟩ := st
    simp only at h
    subst h
    rfl
  · intro t u s st h
    unfold handle_inbound_message
    cases hsp : pySplit t with
    | nil => exact h
    | cons m0 rest =>
      have hred : dispatch (m0 :: rest) st =
          if m0 == "start" then
            if (rest.length != 2
                || !(pyIsdigit (rest.getD 0 "")
                      || rest.getD 1 "" != "hours")) then
              (Outcome.reply COMMAND_ERROR, st)
            else
              start_active_loop (rest.getD 0 "") st
          else if m0 == "stop" then
            if (rest.length != 0 && (in_active_loop st).isNone) then
              (Outcome.reply COMMAND_ERROR, st)
            else
              end_active_loop st
          else if (in_active_loop st).isNone then
            (Outcome.reply COMMAND_ERROR, st)
          else
            log_user_response st (m0 :: rest) := rfl
      rw [hred]
      split
      · split
        · exact h
        · exact start_active_loop_loops_length _ _ h
      · split
        · split
          · exact h
          · exact end_active_loop_loops_length _ h
        · split
          · exact h
          · exact h

/-- Witness for claim C5's theorem: both conjuncts applied at concrete
inputs. -/
theorem claim_C5_witness :
    (handle_inbound_message "start 5 hours" "u" "s" ⟨[⟨3, -3⟩], []⟩).2.loops =
        [⟨5, -5⟩] ∧
      ((handle_inbound_message "hello" "u" "s"
          ⟨[⟨3, -3⟩], []⟩).2).loops.length ≤ 1 :=
  ⟨claim_C5_replace_and_invariant.1 "u" "s" ⟨[⟨3, -3⟩], []⟩ ⟨3, -3⟩ rfl rfl,
   claim_C5_replace_and_invariant.2 "hello" "u" "s" ⟨[⟨3, -3⟩], []⟩
     (by decide)⟩

/-- Claim C6: "stop" while InSession deletes the session and replies with the
end-session template with the summary reference substituted; a second "stop"
replies with the whimsical no-session string and the state stays NoSession. -/
theorem claim_C6_stop_then_stop (u s : String) (st : BotState)
    (l : ActiveLoop) (h : st.loops = [l]) :
    handle_inbound_message "stop" u s st =
      (Outcome.reply
          "Working session has ended! See a summary of your work here: google.com",
        { st with loops := [] }) ∧
    handle_inbound_message "stop" u s { st with loops := [] } =
      (Outcome.reply "I can't believe you've done this",
        { st with loops := [] }) := by
  obtain ⟨lp, rs⟩ := st
  simp only at h
  subst h
  exact ⟨rfl, rfl⟩

/-- Witness for claim C6's theorem at a concrete state. -/
theorem claim_C6_stop_then_stop_witness :
    handle_inbound_message "stop" "u" "s" ⟨[⟨3, -3⟩], []⟩ =
      (Outcome.reply
          "Working session has ended! See a summary of your work here: google.com",
        ⟨[], []⟩) ∧
    handle_inbound_message "stop" "u" "s" ⟨[], []⟩ =
      (Outcome.reply "I can't believe you've done this", ⟨[], []⟩) :=
  claim_C6_stop_then_stop "u" "s" ⟨[⟨3, -3⟩], []⟩ ⟨3, -3⟩ rfl

/-- Claim C7 (counterexample): "foo bar baz" while InSession does return the
acknowledgment, but no LoggedResponse is created — the state (its stored
responses included) is exactly the input state, because `log_user_response`
is an unimplemented stub. -/
theorem claim_C7_counterexample :
    (handle_inbound_message "foo bar baz" "u" "s" ⟨[⟨3, -3⟩], []⟩).1 =
        Outcome.reply "Response has been logged!" ∧
      (handle_inbound_message "foo bar baz" "u" "s" ⟨[⟨3, -3⟩], []⟩).2 =
        ⟨[⟨3, -3⟩], []⟩ ∧
      (handle_inbound_message "foo bar baz" "u" "s"
          ⟨[⟨3, -3⟩], []⟩).2.responses = [] := by
  decide

/-- Claim C7 (amended): for every user InSession, a message whose first token
is neither "start" nor "stop" returns the fixed acknowledgment and leaves the
state (stored responses included) unchanged — nothing is persisted. -/
theorem claim_C7_amended (t u s : String) (st : BotState) (w : String)
    (ws : List String) (h : pySplit t = w :: ws) (hw1 : w ≠ "start")
    (hw2 : w ≠ "stop") (hl : st.loops ≠ []) :
    handle_inbound_message t u s st =
      (Outcome.reply "Response has been logged!", st) := by
  unfold handle_inbound_message
  rw [h]
  have hb1 : (w == "start") = false := by simpa using hw1
  have hb2 : (w == "stop") = false := by simpa using hw2
  have hn : (in_active_loop st).isNone = false := by
    cases hll : st.loops with
    | nil => exact absurd hll hl
    | cons a tl => simp [in_active_loop, hll]
  have hred : dispatch (w :: ws) st =
      if w == "start" then
        if (ws.length != 2
            || !(pyIsdigit (ws.getD 0 "") || ws.getD 1 "" != "hours")) then
          (Outcome.reply COMMAND_ERROR, st)
        else
          start_active_loop (ws.getD 0 "") st
      else if w == "stop" then
        if (ws.length != 0 && (in_active_loop st).isNone) then
          (Outcome.reply COMMAND_ERROR, st)
        else
          end_active_loop st
      else if (in_active_loop st).isNone then
        (Outcome.reply COMMAND_ERROR, st)
      else
        log_user_response st (w :: ws) := rfl
  rw [hred]
  simp only [hb1, hb2, hn, Bool.false_eq_true, if_false]
  rfl

/-- Witness for claim C7's amended theorem at "foo bar baz" with a session
and a previously stored response. -/
theorem claim_C7_amended_witness :
    pySplit "foo bar baz" = "foo" :: ["bar", "baz"] ∧
    handle_inbound_message "foo bar baz" "u" "s" ⟨[⟨3, -3⟩], ["old"]⟩ =
      (Outcome.reply "Response has been logged!", ⟨[⟨3, -3⟩], ["old"]⟩) :=
  ⟨rfl,
   claim_C7_amended "foo bar baz" "u" "s" ⟨[⟨3, -3⟩], ["old"]⟩ "foo"
     ["bar", "baz"] rfl (by decide) (by decide) (by decide)⟩

/-- Claim C8: for every user in NoSession, a message whose first token is
neither "start" nor "stop" returns the fixed invalid-command reply and leaves
the state unchanged. -/
theorem claim_C8_log_requires_session (t u s : String) (st : BotState)
    (w : String) (ws : List String) (h : pySplit t = w :: ws)
    (hw1 : w ≠ "start") (hw2 : w ≠ "stop") (hl : st.loops = []) :
    handle_inbound_message t u s st = (Outcome.reply COMMAND_ERROR, st) := by
  unfold handle_inbound_message
  rw [h]
  have hb1 : (w == "start") = false := by simpa using hw1
  have hb2 : (w == "stop") = false := by simpa using hw2
  have hn : (in_active_loop st).isNone = true := by
    simp [in_active_loop, hl]
  have hred : dispatch (w :: ws) st =
      if w == "start" then
        if (ws.length != 2
            || !(pyIsdigit (ws.getD 0 "") || ws.getD 1 "" != "hours")) then
          (Outcome.reply COMMAND_ERROR, st)
        else
          start_active_loop (ws.getD 0 "") st
      else if w == "stop" then
        if (ws.length != 0 && (in_active_loop st).isNone) then
          (Outcome.reply COMMAND_ERROR, st)
        else
          end_active_loop st
      else if (in_active_loop st).isNone then
        (Outcome.reply COMMAND_ERROR, st)
      else
        log_user_response st (w :: ws) := rfl
  rw [hred]
  simp only [hb1, hb2, hn, Bool.false_eq_true, if_false, if_true]

/-- Witness for claim C8's theorem at "foo bar" with no session. -/
theorem claim_C8_log_requires_session_witness :
    pySplit "foo bar" = "foo" :: ["bar"] ∧
    handle_inbound_message "foo bar" "u" "s" ⟨[], []⟩ =
      (Outcome.reply COMMAND_ERROR, ⟨[], []⟩) :=
  ⟨rfl,
   claim_C8_log_requires_session "foo bar" "u" "s" ⟨[], []⟩ "foo" ["bar"]
     rfl (by decide) (by decide) rfl⟩

/-- Claim C9 (counterexample): "start 0 hours" is dispatched to session start
(3 tokens, digit second token) and creates an ActiveSession whose ping
frequency is 0 — not strictly positive. -/
theorem claim_C9_counterexample :
    (handle_inbound_message "start 0 hours" "u" "s" ⟨[], []⟩).2.loops =
        [⟨0, 0⟩] ∧
      ¬(0 < (ActiveLoop.mk 0 0).mssg_freq) := by
  decide

/-- Claim C9 (amended): every ActiveSession created by a dispatched start
command has ping frequency `int(token[1])` — an integer that need not be
positive — and countdown seed equal to `-1 *` that frequency. -/
theorem claim_C9_amended (t u s : String) (st : BotState) (w1 w2 : String)
    (n : Int) (h : pySplit t = ["start", w1, w2])
    (hv : pyIsdigit w1 = true ∨ w2 ≠ "hours") (hn : pyInt w1 = some n) :
    ((handle_inbound_message t u s st).2).loops.getLast? =
      some ⟨n, -1 * n⟩ := by
  unfold handle_inbound_message
  rw [h]
  have hg0 : [w1, w2].getD 0 "" = w1 := rfl
  have hguard : (([w1, w2].length != 2)
      || !(pyIsdigit ([w1, w2].getD 0 "")
            || [w1, w2].getD 1 "" != "hours")) = false :=
    (start_guard_false_iff [w1, w2]).mpr ⟨rfl, by rw [hg0]; exact hv⟩
  have hred : dispatch ("start" :: [w1, w2]) st =
      if (([w1, w2].length != 2)
          || !(pyIsdigit ([w1, w2].getD 0 "")
                || [w1, w2].getD 1 "" != "hours")) then
        (Outcome.reply COMMAND_ERROR, st)
      else
        start_active_loop ([w1, w2].getD 0 "") st := rfl
  rw [hred, hguard]
  simp only [Bool.false_eq_true, if_false, hg0]
  simp only [start_active_loop, hn, pyFmtS_session_begin]
  rw [List.getLast?_concat]

/-- Witness for claim C9's amended theorem at "start 7 hours". -/
theorem claim_C9_amended_witness :
    pySplit "start 7 hours" = ["start", "7", "hours"] ∧
    pyIsdigit "7" = true ∧ pyInt "7" = some 7 ∧
    ((handle_inbound_message "start 7 hours" "u" "s"
        ⟨[], []⟩).2).loops.getLast? = some ⟨7, -7⟩ :=
  ⟨rfl, rfl, rfl,
   claim_C9_amended "start 7 hours" "u" "s" ⟨[], []⟩ "7" "hours" 7 rfl
     (Or.inl rfl) rfl⟩

end ProductivityBot
